import Mathlib

/-!
Shallow embedding of the RS32 LiDAR packet decoders of this repository:
the legacy variant `Decoder32` (src/rs_driver/driver/decoder/decoder_32.hpp)
and the newer variant `DecoderRS32`
(src/src/rs_driver/driver/decoder/decoder_RS32.hpp).

Packets are modelled as structured records mirroring the packed C structs the
code overlays on the byte buffer; 16-bit fields hold the value the struct
overlay reads (little-endian host interpretation), and `RS_SWAP_SHORT` /
`ntohs` are the byte swap the code applies before use.  Floating-point
arithmetic is modelled exactly over `ℚ`; trigonometric lookup tables are
abstract parameters of the decoder state.
-/

namespace Rs

/-- Error codes delivered to the error callback (`ERRCODE_WRONGPKTLENGTH`,
`ERRCODE_WRONGPKTHEADER`). -/
inductive ErrCode where
  | WRONGPKTLENGTH
  | WRONGPKTHEADER
deriving DecidableEq, Repr

/-- Echo-mode enumeration of the newer driver (`RSEchoMode`). -/
inductive RSEchoMode where
  | ECHO_SINGLE
  | ECHO_DUAL
deriving DecidableEq, Repr

/-- Embeds `DecoderRS32::getEchoMode` (decoder_RS32.hpp, lines 128-139): a switch on
the raw byte with `case 0x00` returning dual and `case 0x01`, `case 0x02` and
`default` all returning single. -/
def getEchoMode (mode : Nat) : RSEchoMode :=
  if mode = 0x00 then RSEchoMode.ECHO_DUAL else RSEchoMode.ECHO_SINGLE

/-- Modelled from the spec: the legacy enumeration constant `RS_ECHO_DUAL`
lives in decoder_base.hpp, which is not part of the sources; the legacy code
treats `echo_mode_ == RS_ECHO_DUAL` as dual and anything else as single, and
stores the raw recognized byte values 0x01/0x02 directly, so the dual constant
is distinct from both; it is modelled as 0. -/
def RS_ECHO_DUAL : Nat := 0

/-- The echo-mode assignment of `Decoder32::decodeDifopPkt`
(decoder_32.hpp, lines 278-285): bytes 0x01 and 0x02 are stored verbatim,
anything else sets `RS_ECHO_DUAL`. -/
def legacyEchoMode (return_mode : Nat) : Nat :=
  if return_mode = 0x01 ∨ return_mode = 0x02 then return_mode else RS_ECHO_DUAL

/-- Embeds `RS_SWAP_SHORT` of the legacy driver and `ntohs` of the newer one:
byte swap of a 16-bit value. -/
def RS_SWAP_SHORT (v : Nat) : Nat :=
  (v % 256) * 256 + (v / 256) % 256

/-- Constant `RS32_MSOP_ID` (decoder_32.hpp line 31); the newer driver's 8-byte
`MSOP_ID` array compares equal to the same packet bytes. -/
def RS32_MSOP_ID : Nat := 0xA050A55A0A05AA55

/-- Constant `RS32_BLOCK_ID` (decoder_32.hpp line 32); the newer driver's 2-byte
`BLOCK_ID = {0xFF, 0xEE}` compares equal to the same packet bytes. -/
def RS32_BLOCK_ID : Nat := 0xEEFF

/-- Constant `RS32_DIFOP_ID` (decoder_32.hpp line 33); the newer driver's 8-byte
`DIFOP_ID` array compares equal to the same packet bytes. -/
def RS32_DIFOP_ID : Nat := 0x555511115A00FFA5

/-- Truncation toward zero, the semantics of the C++ `(int)` cast on a
floating-point value. -/
def truncQ (q : ℚ) : Int :=
  if 0 ≤ q then ⌊q⌋ else ⌈q⌉

/-- C++ `%` on `int` (truncated division remainder). -/
def cppMod (a b : Int) : Int := Int.tmod a b

/-- The azimuth-delta computation of `Decoder32::decodeMsopPkt`
(decoder_32.hpp line 204): `(36000 + azi_prev - azi_cur) % 36000` in `int`
arithmetic. -/
def azimuthDiff (azi_prev azi_cur : Int) : Int :=
  cppMod (36000 + azi_prev - azi_cur) 36000

/-- Distance bounds kept by the decoder; the legacy constructor clamps them. -/
structure DistBounds where
  max_distance : ℚ
  min_distance : ℚ
deriving DecidableEq, Repr

/-- The distance-bound clamping of the legacy constructor
`Decoder32::Decoder32` (decoder_32.hpp lines 126-133): `max_distance_` is
reset to 200 when above 200 or below 0.4; then `min_distance_` is reset to
0.4 when above 200 or above the (already clamped) `max_distance_`. -/
def constructorClamp (p : DistBounds) : DistBounds :=
  let max1 : ℚ :=
    if p.max_distance > 200 ∨ p.max_distance < 2/5 then 200 else p.max_distance
  let min1 : ℚ :=
    if p.min_distance > 200 ∨ p.min_distance > max1 then 2/5 else p.min_distance
  ⟨max1, min1⟩

/-- One channel measurement (`RS_Channel` / `RSChannel`): a 16-bit distance
and an 8-bit intensity, the distance held as the struct overlay reads it and
byte-swapped at use. -/
structure RSChannel where
  distance : Nat
  intensity : Nat

/-- One firing block (`RS32_MsopBlock` / `RS32MsopBlock`): 2-byte identifier,
16-bit azimuth and 32 channels.  The channel array is modelled as a total
function; the decoders only read indices below 32. -/
structure RS32MsopBlock where
  id : Nat
  azimuth : Nat
  channels : Nat → RSChannel

/-- One spin-data packet (`RS32_MsopPkt` / `RS32MsopPkt`): header identifier
and 12 blocks, the block array modelled as a total function; the decoders only
read indices below 12. -/
structure RS32MsopPkt where
  header_id : Nat
  blocks : Nat → RS32MsopBlock

/-- Constant `RS32_BLOCKS_PER_PKT` (decoder_32.hpp line 28); also
`BLOCKS_PER_PKT = 12` of the newer `getConstParam`. -/
def RS32_BLOCKS_PER_PKT : Nat := 12

/-- Constant `RS32_CHANNELS_PER_BLOCK` (decoder_32.hpp line 27); also
`CHANNELS_PER_BLOCK = 32` of the newer `getConstParam`. -/
def RS32_CHANNELS_PER_BLOCK : Nat := 32

/-- Constant `RS32_CHANNEL_TOFFSET` (decoder_32.hpp line 34). -/
def RS32_CHANNEL_TOFFSET : ℚ := 3

/-- Constant `RS32_FIRING_TDURATION` (decoder_32.hpp line 35). -/
def RS32_FIRING_TDURATION : ℚ := 50

/-- Modelled from the spec: `RS_RESOLUTION_5mm_DISTANCE_COEF` is defined in
decoder_base.hpp, which is not among the sources; the spec fixes the distance
resolution at 0.005 m per unit, matching `DIS_RESOLUTION = 0.005` of the newer
in-source `getConstParam`. -/
def RS_RESOLUTION_5mm_DISTANCE_COEF : ℚ := 1/200

/-- Lens-offset `Rx_ = 0.03997` set by the legacy constructor
(decoder_32.hpp line 122); equal to `RX` of the newer `getConstParam`. -/
def legacyRx : ℚ := 3997/100000

/-- Lens-offset `Rz_ = 0` set by the legacy constructor
(decoder_32.hpp line 124); equal to `RZ` of the newer `getConstParam`. -/
def legacyRz : ℚ := 0

/-- State of the legacy `Decoder32` read by `decodeMsopPkt`: fields inherited
from `DecoderBase` (decoder_base.hpp is not among the sources, so the lookup
tables and angle lists are abstract data of the state; the spec fixes their
roles).  `angle_flag` is the no-wrap flag of the azimuth window: per the
spec, wrap is implied when `start_angle > end_angle`. -/
structure LegacyState where
  echo_mode : Nat
  max_distance : ℚ
  min_distance : ℚ
  start_angle : Int
  end_angle : Int
  angle_flag : Bool
  vert_angle_list : Nat → ℚ
  hori_angle_list : Nat → ℚ
  cos_lookup_table : Int → ℚ
  sin_lookup_table : Int → ℚ

/-- The `(azi_prev, azi_cur)` selection of `Decoder32::decodeMsopPkt`
(decoder_32.hpp lines 175-202): dual-echo pairs a block with the block two
positions away (direction reversed for the last two blocks), single-echo with
the immediate neighbour (direction reversed for the last block). -/
def legacyAziPair (st : LegacyState) (pkt : RS32MsopPkt) (blk_idx : Nat) :
    Int × Int :=
  let azimuth_blk : Int := RS_SWAP_SHORT (pkt.blocks blk_idx).azimuth
  if st.echo_mode = RS_ECHO_DUAL then
    if blk_idx < RS32_BLOCKS_PER_PKT - 2 then
      (RS_SWAP_SHORT (pkt.blocks (blk_idx + 2)).azimuth, azimuth_blk)
    else
      (azimuth_blk, RS_SWAP_SHORT (pkt.blocks (blk_idx - 2)).azimuth)
  else
    if blk_idx < RS32_BLOCKS_PER_PKT - 1 then
      (RS_SWAP_SHORT (pkt.blocks (blk_idx + 1)).azimuth, azimuth_blk)
    else
      (azimuth_blk, RS_SWAP_SHORT (pkt.blocks (blk_idx - 1)).azimuth)

/-- Modelled from the spec: `DecoderBase::azimuthCalibration` is defined in
decoder_base.hpp, which is not among the sources; per spec §4.2d the final
azimuth is the channel azimuth plus the per-channel horizontal offset,
normalized into [0, 36000). -/
def azimuthCalibration (st : LegacyState) (azimuth : ℚ) (channel : Nat) :
    Int :=
  (truncQ (azimuth + st.hori_angle_list channel)) % 36000

/-- The validity gate of `Decoder32::decodeMsopPkt` (decoder_32.hpp line 227),
verbatim: distance within the inclusive bounds, and the azimuth either inside
`[start_angle, end_angle]` when `angle_flag` is set, or inside
`[start_angle, 36000] ∪ [0, end_angle]` when it is not. -/
def legacyGate (st : LegacyState) (distance_cali : ℚ) (angle_horiz : Int) :
    Bool :=
  (decide (distance_cali ≤ st.max_distance) &&
    decide (st.min_distance ≤ distance_cali)) &&
  ((st.angle_flag && decide (st.start_angle ≤ angle_horiz) &&
      decide (angle_horiz ≤ st.end_angle)) ||
   (!st.angle_flag &&
     ((decide (st.start_angle ≤ angle_horiz) && decide (angle_horiz ≤ 36000)) ||
      (decide (0 ≤ angle_horiz) && decide (angle_horiz ≤ st.end_angle)))))

/-- A floating-point field of an emitted point: either NaN or an exact value. -/
inductive FVal where
  | nan
  | val (q : ℚ)
deriving DecidableEq, Repr

/-- A point emitted by the legacy decoder: the four fields the legacy
per-channel loop assigns. -/
structure LPoint where
  x : FVal
  y : FVal
  z : FVal
  intensity : FVal
deriving DecidableEq, Repr

/-- The per-channel azimuth interpolation of `Decoder32::decodeMsopPkt`
(decoder_32.hpp line 210). -/
def legacyAzimuthChannel (st : LegacyState) (pkt : RS32MsopPkt)
    (blk_idx channel_idx : Nat) : ℚ :=
  let azimuth_blk : Int := RS_SWAP_SHORT (pkt.blocks blk_idx).azimuth
  let pair := legacyAziPair st pkt blk_idx
  let azimuth_diff : ℚ := (azimuthDiff pair.1 pair.2 : Int)
  (azimuth_blk : ℚ) +
    azimuth_diff * RS32_CHANNEL_TOFFSET * ((channel_idx % 16 : Nat) : ℚ) /
      RS32_FIRING_TDURATION

/-- The calibrated distance of one channel (decoder_32.hpp lines 216-217). -/
def legacyDistanceCali (pkt : RS32MsopPkt) (blk_idx channel_idx : Nat) : ℚ :=
  (RS_SWAP_SHORT ((pkt.blocks blk_idx).channels channel_idx).distance : Nat) *
    RS_RESOLUTION_5mm_DISTANCE_COEF

/-- The normalized horizontal angle of one channel
(decoder_32.hpp lines 211 and 220). -/
def legacyAngleHoriz (st : LegacyState) (pkt : RS32MsopPkt)
    (blk_idx channel_idx : Nat) : Int :=
  let azimuth_final :=
    azimuthCalibration st (legacyAzimuthChannel st pkt blk_idx channel_idx)
      channel_idx
  cppMod (azimuth_final + 36000) 36000

/-- The gate of the legacy per-channel loop applied to the computed distance
and angle of a channel. -/
def legacyChanValid (st : LegacyState) (pkt : RS32MsopPkt)
    (blk_idx channel_idx : Nat) : Bool :=
  legacyGate st (legacyDistanceCali pkt blk_idx channel_idx)
    (legacyAngleHoriz st pkt blk_idx channel_idx)

/-- The point built by one iteration of the legacy per-channel loop
(decoder_32.hpp lines 206-261).  A valid point carries the Cartesian
projection through the lookup tables; an invalid one is the all-NaN
placeholder of lines 249-252.  The raw intensity is a byte, so the
`isnan(point.intensity)` clamp of line 242 never fires in the model. -/
def legacyPoint (st : LegacyState) (pkt : RS32MsopPkt)
    (blk_idx channel_idx : Nat) : LPoint :=
  let azimuth_channel := legacyAzimuthChannel st pkt blk_idx channel_idx
  let intensity : ℚ := ((pkt.blocks blk_idx).channels channel_idx).intensity
  let distance_cali := legacyDistanceCali pkt blk_idx channel_idx
  let angle_horiz := legacyAngleHoriz st pkt blk_idx channel_idx
  let angle_horiz_ori : Int := cppMod (truncQ (azimuth_channel + 36000)) 36000
  let angle_vert : Int :=
    cppMod (cppMod (truncQ (st.vert_angle_list channel_idx)) 36000 + 36000)
      36000
  if legacyGate st distance_cali angle_horiz then
    { x := FVal.val (distance_cali * st.cos_lookup_table angle_vert *
          st.cos_lookup_table angle_horiz +
          legacyRx * st.cos_lookup_table angle_horiz_ori)
      y := FVal.val (-(distance_cali * st.cos_lookup_table angle_vert *
          st.sin_lookup_table angle_horiz) -
          legacyRx * st.sin_lookup_table angle_horiz_ori)
      z := FVal.val (distance_cali * st.sin_lookup_table angle_vert + legacyRz)
      intensity := FVal.val intensity }
  else
    { x := FVal.nan, y := FVal.nan, z := FVal.nan, intensity := FVal.nan }

/-- The blocks of the packet actually processed by the legacy loop: the loop
of decoder_32.hpp lines 168-262 runs over blocks 0..11 in order but executes
`break` at the first block whose identifier differs from `RS32_BLOCK_ID`
(lines 170-173), so exactly the leading run of matching blocks is decoded. -/
def legacyProcessedBlocks (pkt : RS32MsopPkt) : List Nat :=
  (List.range RS32_BLOCKS_PER_PKT).takeWhile
    (fun i => (pkt.blocks i).id == RS32_BLOCK_ID)

/-- Embeds `Decoder32::decodeMsopPkt` (decoder_32.hpp lines 153-265), as the
list of points appended to the output vector: nothing when the packet header
identifier mismatches (the function returns -2 at line 160), otherwise 32
points per processed block. -/
def legacyDecodeMsop (st : LegacyState) (pkt : RS32MsopPkt) : List LPoint :=
  if pkt.header_id ≠ RS32_MSOP_ID then []
  else
    (legacyProcessedBlocks pkt).flatMap
      (fun blk_idx =>
        (List.range RS32_CHANNELS_PER_BLOCK).map (legacyPoint st pkt blk_idx))

/-- A point emitted by the newer decoder: the six fields its setters assign. -/
structure NPoint where
  x : FVal
  y : FVal
  z : FVal
  intensity : FVal
  ring : Nat
  timestamp : ℚ
deriving DecidableEq, Repr

/-- State read by the newer `DecoderRS32::decodeMsopPkt`.  The members
`chan_angles_` (vertAdjust, horizAdjust, toUserChan), the range filters
`distance_block_` / `scan_block_`, and the traverser's per-channel azimuth and
timestamp come from files not among the sources, so — modelled from the spec —
they are abstract data of the state with the contracts §4.2 assigns them. -/
structure NewerState where
  dense_points : Bool
  min_distance : ℚ
  max_distance : ℚ
  scan_start : Int
  scan_end : Int
  vertAdjust : Nat → Int
  horizAdjust : Nat → Int → Int
  toUserChan : Nat → Nat
  traverserAngle : Nat → Nat → Int
  traverserTs : Nat → Nat → ℚ
  cosTbl : Int → ℚ
  sinTbl : Int → ℚ

/-- Modelled from the spec: `DistanceSection::in` (section.hpp is not among
the sources); per the spec the distance bounds are inclusive on both ends. -/
def distanceIn (st : NewerState) (d : ℚ) : Bool :=
  decide (st.min_distance ≤ d) && decide (d ≤ st.max_distance)

/-- Modelled from the spec: `AzimuthSection::in` (section.hpp is not among
the sources); per the spec the window is `start ≤ a ≤ end` without wrap, and
`a ≥ start ∨ a ≤ end` with wrap, wrap being implied by `start > end`. -/
def scanIn (st : NewerState) (a : Int) : Bool :=
  if st.scan_start ≤ st.scan_end then
    decide (st.scan_start ≤ a) && decide (a ≤ st.scan_end)
  else
    decide (st.scan_start ≤ a) || decide (a ≤ st.scan_end)

/-- The validity gate of one iteration of `DecoderRS32::decodeMsopPkt`
(decoder_RS32.hpp line 217) applied to the channel's computed distance and
adjusted azimuth. -/
def newerChanGate (st : NewerState) (pkt : RS32MsopPkt) (blk chan : Nat) :
    Bool :=
  distanceIn st
    ((RS_SWAP_SHORT ((pkt.blocks blk).channels chan).distance : Nat) *
      RS_RESOLUTION_5mm_DISTANCE_COEF) &&
  scanIn st (st.horizAdjust chan (st.traverserAngle blk chan))

/-- One iteration of the newer per-channel loop (decoder_RS32.hpp lines
198-243): the errors signalled and the points emitted for the pair
`(blk, chan)`.  A mismatching block identifier signals `WRONGPKTHEADER` and
the iteration continues; a gate-passing channel emits a geometric point with
its intensity byte; otherwise, when dense output is off, an x/y/z-NaN
placeholder with intensity 0 (line 239) is emitted, and with dense output on
nothing is. -/
def newerEmitChan (st : NewerState) (pkt : RS32MsopPkt) (blk chan : Nat) :
    List ErrCode × List NPoint :=
  let block := pkt.blocks blk
  let channel := block.channels chan
  let errs : List ErrCode :=
    if block.id ≠ RS32_BLOCK_ID then [ErrCode.WRONGPKTHEADER] else []
  let distance : ℚ :=
    (RS_SWAP_SHORT channel.distance : Nat) * RS_RESOLUTION_5mm_DISTANCE_COEF
  let angle_horiz : Int := st.traverserAngle blk chan
  let angle_vert : Int := st.vertAdjust chan
  let angle_horiz_final : Int := st.horizAdjust chan angle_horiz
  let chan_ts : ℚ := st.traverserTs blk chan
  let pts : List NPoint :=
    if newerChanGate st pkt blk chan then
      [{ x := FVal.val (distance * st.cosTbl angle_vert *
            st.cosTbl angle_horiz_final + legacyRx * st.cosTbl angle_horiz)
         y := FVal.val (-(distance * st.cosTbl angle_vert *
            st.sinTbl angle_horiz_final) - legacyRx * st.sinTbl angle_horiz)
         z := FVal.val (distance * st.sinTbl angle_vert + legacyRz)
         intensity := FVal.val (channel.intensity : ℚ)
         ring := st.toUserChan chan
         timestamp := chan_ts }]
    else if !st.dense_points then
      [{ x := FVal.nan, y := FVal.nan, z := FVal.nan,
         intensity := FVal.val 0,
         ring := st.toUserChan chan,
         timestamp := chan_ts }]
    else []
  (errs, pts)

/-- Modelled from the spec: `SingleReturnPacketTraverser`
(packet_traverser.hpp is not among the sources); the spec describes iteration
over the packet's fixed grid of 12 firing blocks × 32 channels in order. -/
def traverserGrid : List (Nat × Nat) :=
  (List.range RS32_BLOCKS_PER_PKT).flatMap
    (fun b => (List.range RS32_CHANNELS_PER_BLOCK).map (fun c => (b, c)))

/-- Embeds `DecoderRS32::decodeMsopPkt` (decoder_RS32.hpp lines 178-245): the
errors signalled and the points appended over the whole traverser grid. -/
def newerDecodeMsop (st : NewerState) (pkt : RS32MsopPkt) :
    List ErrCode × List NPoint :=
  (traverserGrid.flatMap (fun p => (newerEmitChan st pkt p.1 p.2).1),
   traverserGrid.flatMap (fun p => (newerEmitChan st pkt p.1 p.2).2))

/-- Constant `MSOP_LEN = 1248` of the newer in-source `getConstParam`. -/
def MSOP_LEN : Nat := 1248

/-- Constant `DIFOP_LEN = 1248` of the newer in-source `getConstParam`. -/
def DIFOP_LEN : Nat := 1248

/-- The configuration packet as read by the newer `processDifopPkt`: the
8-byte identifier (as the equivalent little-endian 64-bit value) and the raw
return-mode byte. -/
structure RS32DifopPkt where
  id : Nat
  return_mode : Nat

/-- The part of the newer decoder's state `processDifopPkt` updates in the
sources: the echo mode.  (`decodeDifopCommon` and
`ChanAngles::loadFromDifop` live in files not among the sources.) -/
structure NewerDifopState where
  echo_mode : RSEchoMode
deriving DecidableEq, Repr

/-- Embeds `DecoderRS32::processDifopPkt` (decoder_RS32.hpp lines 151-175):
a size mismatch signals `WRONGPKTLENGTH`, an identifier mismatch signals
`WRONGPKTHEADER`, both non-fatally; the echo mode is then assigned from the
return-mode byte regardless. -/
def processDifopPkt (st : NewerDifopState) (size : Nat) (pkt : RS32DifopPkt) :
    List ErrCode × NewerDifopState :=
  let errs1 : List ErrCode :=
    if size ≠ DIFOP_LEN then [ErrCode.WRONGPKTLENGTH] else []
  let errs2 : List ErrCode :=
    if pkt.id ≠ RS32_DIFOP_ID then [ErrCode.WRONGPKTHEADER] else []
  (errs1 ++ errs2, { echo_mode := getEchoMode pkt.return_mode })

/-- Modelled from the spec: the base-class entry point that validates the
spin-data packet length (decoder.hpp is not among the sources; the in-source
`decodeMsopPkt` has no length check).  Per spec §4.2 step 1, a length differing
from the fixed constant signals `WrongPacketLength` via the callback,
non-fatally, and decoding still proceeds. -/
def processMsopPkt (st : NewerState) (size : Nat) (pkt : RS32MsopPkt) :
    List ErrCode × List NPoint :=
  let lenErr : List ErrCode :=
    if size ≠ MSOP_LEN then [ErrCode.WRONGPKTLENGTH] else []
  let r := newerDecodeMsop st pkt
  (lenErr ++ r.1, r.2)

/-- The calibration store of the legacy decoder: the flag word
`cali_data_flag_` and the two 32-entry per-channel angle lists. -/
structure LegacyCal where
  cali_data_flag : Nat
  vert_angle_list : List ℚ
  hori_angle_list : List ℚ
deriving DecidableEq, Repr

/-- Embeds `Decoder32::loadCalibrationFile` (decoder_32.hpp lines 349-383) on
an already-opened file, given as the list of parsed
`(vertical, horizontal)` degree pairs, one per line: the loop writes
`value * 100` into the angle lists row by row and stops after 32 rows.  The
function does not touch `cali_data_flag_`. -/
def loadCalibrationFile (rows : List (ℚ × ℚ)) (st : LegacyCal) : LegacyCal :=
  let n := min rows.length 32
  { st with
    vert_angle_list :=
      (rows.take 32).map (fun r => r.1 * 100) ++ st.vert_angle_list.drop n
    hori_angle_list :=
      (rows.take 32).map (fun r => r.2 * 100) ++ st.hori_angle_list.drop n }

/-- One step of the calibration-parsing loop of `Decoder32::decodeDifopPkt`
(decoder_32.hpp lines 310-340).  The sign variable `neg` is declared once
before the loop and is only reassigned when the sign byte is 0 or 1, so its
value carries over between entries; the fold state threads it exactly as the
C++ loop does. -/
def parseCaliStep (p_ver p_hori : Nat → Nat) (acc : Int × List ℚ × List ℚ)
    (i : Nat) : Int × List ℚ × List ℚ :=
  let lsb := p_ver (i * 3)
  let mid := p_ver (i * 3 + 1)
  let msb := p_ver (i * 3 + 2)
  let neg1 : Int := if lsb = 0 then 1 else if lsb = 1 then -1 else acc.1
  let v : ℚ := ((mid * 256 + msb : Nat) : ℚ) * (neg1 : Int) * (1/10)
  let lsb2 := p_hori (i * 3)
  let mid2 := p_hori (i * 3 + 1)
  let msb2 := p_hori (i * 3 + 2)
  let neg2 : Int := if lsb2 = 0 then 1 else if lsb2 = 1 then -1 else neg1
  let h : ℚ := ((mid2 * 256 + msb2 : Nat) : ℚ) * (neg2 : Int) * (1/10)
  (neg2, acc.2.1 ++ [v], acc.2.2 ++ [h])

/-- The 32-entry angle tables parsed from the embedded calibration bytes by
`Decoder32::decodeDifopPkt` (decoder_32.hpp lines 308-340). -/
def parseCali (p_ver p_hori : Nat → Nat) : List ℚ × List ℚ :=
  ((List.range 32).foldl (parseCaliStep p_ver p_hori) (1, [], [])).2

/-- The configuration packet as read by the legacy `decodeDifopPkt`: the
64-bit identifier, the return-mode byte and the two 96-byte calibration
tables (as total functions on byte offsets). -/
structure LegacyDifopPkt where
  id : Nat
  return_mode : Nat
  pitch_cali : Nat → Nat
  yaw_cali : Nat → Nat

/-- The degenerate-byte test of `Decoder32::decodeDifopPkt`
(decoder_32.hpp lines 300-302): a byte that is 0x00 or 0xFF. -/
def caliByteDegenerate (b : Nat) : Bool :=
  b == 0x00 || b == 0xFF

/-- The calibration-ingestion part of `Decoder32::decodeDifopPkt`
(decoder_32.hpp lines 271-276 and 295-343): nothing happens when the packet
identifier mismatches (return -2), when bit 0x2 of `cali_data_flag_` is
already set, or when the first three vertical-calibration bytes are all
degenerate; otherwise both angle tables are parsed and bit 0x2 is set. -/
def legacyDecodeDifopCal (st : LegacyCal) (pkt : LegacyDifopPkt) : LegacyCal :=
  if pkt.id ≠ RS32_DIFOP_ID then st
  else if st.cali_data_flag &&& 0x2 ≠ 0 then st
  else if caliByteDegenerate (pkt.pitch_cali 0) &&
          caliByteDegenerate (pkt.pitch_cali 1) &&
          caliByteDegenerate (pkt.pitch_cali 2) then st
  else
    let parsed := parseCali pkt.pitch_cali pkt.yaw_cali
    { cali_data_flag := st.cali_data_flag ||| 0x2
      vert_angle_list := parsed.1
      hori_angle_list := parsed.2 }

/-- A channel reading zero distance and zero intensity. -/
def zeroChannel : RSChannel := { distance := 0, intensity := 0 }

/-- A block with a matching identifier and all-zero readings. -/
def goodBlock : RS32MsopBlock :=
  { id := RS32_BLOCK_ID, azimuth := 0, channels := fun _ => zeroChannel }

/-- A block whose 2-byte identifier does not match `RS32_BLOCK_ID`. -/
def badBlock : RS32MsopBlock :=
  { id := 0, azimuth := 0, channels := fun _ => zeroChannel }

/-- A spin-data packet with a valid header and all 12 block identifiers
matching. -/
def pktAllGood : RS32MsopPkt :=
  { header_id := RS32_MSOP_ID, blocks := fun _ => goodBlock }

/-- A spin-data packet with a valid header whose first block has a
mismatching identifier while all later blocks are valid. -/
def pktBadBlock0 : RS32MsopPkt :=
  { header_id := RS32_MSOP_ID
    blocks := fun i => if i = 0 then badBlock else goodBlock }

/-- A spin-data packet with a valid header whose block 5 has a mismatching
identifier while all other blocks are valid. -/
def pktBadBlock5 : RS32MsopPkt :=
  { header_id := RS32_MSOP_ID
    blocks := fun i => if i = 5 then badBlock else goodBlock }

/-- A concrete legacy decoder state: dual echo, default distance bounds, the
full azimuth window, and zero calibration and lookup tables. -/
def exLegacyState : LegacyState :=
  { echo_mode := RS_ECHO_DUAL
    max_distance := 200
    min_distance := 2/5
    start_angle := 0
    end_angle := 36000
    angle_flag := true
    vert_angle_list := fun _ => 0
    hori_angle_list := fun _ => 0
    cos_lookup_table := fun _ => 0
    sin_lookup_table := fun _ => 0 }

/-- A concrete legacy decoder state configured with the wrap-enabled azimuth
window start = 35000, end = 1000 of the spec's example (`angle_flag` false
since start > end), with integer distance bounds. -/
def exWrapState : LegacyState :=
  { exLegacyState with
    min_distance := 1
    start_angle := 35000
    end_angle := 1000
    angle_flag := false }

/-- A concrete legacy decoder state whose minimum distance 1 m rejects the
zero distance readings of the example packets. -/
def exGateFailLegacy : LegacyState :=
  { exLegacyState with min_distance := 1 }

/-- A calibration store whose flag already has bit 0x2 set. -/
def exCalReady : LegacyCal :=
  { cali_data_flag := 2
    vert_angle_list := List.replicate 32 0
    hori_angle_list := List.replicate 32 0 }

/-- A concrete newer decoder state: sparse output, default distance bounds,
full azimuth window, identity channel mapping and zero tables. -/
def exNewerState : NewerState :=
  { dense_points := false
    min_distance := 2/5
    max_distance := 200
    scan_start := 0
    scan_end := 36000
    vertAdjust := fun _ => 0
    horizAdjust := fun _ a => a
    toUserChan := fun c => c
    traverserAngle := fun _ _ => 0
    traverserTs := fun _ _ => 0
    cosTbl := fun _ => 0
    sinTbl := fun _ => 0 }

/-- The newer decoder state of `exNewerState` with dense output enabled. -/
def exNewerDense : NewerState :=
  { exNewerState with dense_points := true }

/-- A concrete newer decoder state whose minimum distance 1 m rejects the
zero distance readings of the example packets (sparse output). -/
def exGateFailState : NewerState :=
  { exNewerState with min_distance := 1 }

/-- The same state with dense output enabled. -/
def exGateFailDense : NewerState :=
  { exNewerState with min_distance := 1, dense_points := true }

/-- A calibration store with clear flag and all-zero 32-entry tables. -/
def exCalZero : LegacyCal :=
  { cali_data_flag := 0
    vert_angle_list := List.replicate 32 0
    hori_angle_list := List.replicate 32 0 }

/-- A one-line calibration file: vertical 1°, horizontal 2° (stored as 100
and 200 hundredths of a degree). -/
def exCalRows : List (ℚ × ℚ) := [(1, 2)]

/-- A configuration packet with matching identifier whose vertical
calibration bytes are non-degenerate (second byte 1): channel 0 parses to
+29.1 hundredths of a degree. -/
def exDifopGood : LegacyDifopPkt :=
  { id := RS32_DIFOP_ID
    return_mode := 0
    pitch_cali := fun j => if j = 1 then 1 else if j = 2 then 35 else 0
    yaw_cali := fun _ => 0 }

/-- A second distinct non-degenerate configuration packet (second byte 2). -/
def exDifopGood2 : LegacyDifopPkt :=
  { id := RS32_DIFOP_ID
    return_mode := 0
    pitch_cali := fun j => if j = 1 then 2 else 0
    yaw_cali := fun _ => 0 }

/-- A configuration packet with matching identifier whose first three
vertical calibration bytes are all 0xFF (degenerate). -/
def exDifopDegenerate : LegacyDifopPkt :=
  { id := RS32_DIFOP_ID
    return_mode := 0
    pitch_cali := fun _ => 0xFF
    yaw_cali := fun _ => 0 }

/-- A concrete configuration packet for the newer decoder with a matching
identifier. -/
def exDifopPktNew : RS32DifopPkt :=
  { id := RS32_DIFOP_ID, return_mode := 0 }

/-- The distance/azimuth gate as the specification words it: distance within
the inclusive interval from `min_distance` to `max_distance`, and azimuth
within the window — `start ≤ a ≤ end` when no wrap is configured
(`angle_flag` set) and `a ≥ start ∨ a ≤ end` when wrap is enabled.  Stated
separately from `legacyGate` (which is transcribed from the source) so the
two can be compared. -/
def specGateValid (st : LegacyState) (distance_cali : ℚ) (angle : Int) :
    Bool :=
  (decide (st.min_distance ≤ distance_cali) &&
    decide (distance_cali ≤ st.max_distance)) &&
  (if st.angle_flag then
    decide (st.start_angle ≤ angle) && decide (angle ≤ st.end_angle)
  else
    decide (st.start_angle ≤ angle) || decide (angle ≤ st.end_angle))

end Rs

namespace Rs

/-- C1: the claim states that every raw return-mode byte other than 0x01 and
0x02 — including 0xFF — decodes to dual-echo mode.  The newer decoder's
`getEchoMode` maps 0xFF (and every byte other than 0x00) to single-echo mode,
refuting the claim at input 0xFF. -/
theorem C1_counterexample : getEchoMode 0xFF ≠ RSEchoMode.ECHO_DUAL := by
  decide

/-- C1 (amended): the legacy decoder maps bytes 0x01/0x02 to single-echo
(a stored mode distinct from `RS_ECHO_DUAL`) and every other byte to dual;
the newer decoder's `getEchoMode` yields dual only for byte 0x00 and
single-echo for every other byte value. -/
theorem C1_echo_mode_amended (b : Nat) :
    (legacyEchoMode b ≠ RS_ECHO_DUAL ↔ (b = 0x01 ∨ b = 0x02)) ∧
    (getEchoMode b = RSEchoMode.ECHO_DUAL ↔ b = 0x00) := by
  constructor
  · unfold legacyEchoMode RS_ECHO_DUAL
    split
    · rename_i h
      simp only [ne_eq]
      constructor
      · intro _; exact h
      · intro _; omega
    · rename_i h
      simp only [ne_eq, not_true_eq_false, false_iff]
      exact h
  · unfold getEchoMode
    split
    · rename_i h; simpa using h
    · rename_i h; simp [h]

/-- C6: for all azimuth readings in [0, 36000), the delta
`(36000 + azi_prev - azi_cur) % 36000` is non-negative (and below 36000),
including across the 360°→0° wraparound. -/
theorem C6_azimuth_diff_nonneg (p c : Int)
    (hp0 : 0 ≤ p) (hp1 : p < 36000) (hc0 : 0 ≤ c) (hc1 : c < 36000) :
    0 ≤ azimuthDiff p c ∧ azimuthDiff p c < 36000 := by
  unfold azimuthDiff cppMod
  have hpos : 0 < 36000 + p - c := by omega
  rw [Int.tmod_eq_emod (by omega) (by norm_num)]
  constructor
  · exact Int.emod_nonneg _ (by norm_num)
  · exact Int.emod_lt_of_pos _ (by norm_num)

/-- C6 witness: the wraparound instance azi_prev = 35999, azi_cur = 1 is in
range and its delta is non-negative. -/
theorem C6_azimuth_diff_nonneg_witness :
    0 ≤ (35999 : Int) ∧ (35999 : Int) < 36000 ∧ 0 ≤ (1 : Int) ∧
      (1 : Int) < 36000 ∧ 0 ≤ azimuthDiff 35999 1 :=
  ⟨by decide, by decide, by decide, by decide,
    (C6_azimuth_diff_nonneg 35999 1 (by decide) (by decide) (by decide)
      (by decide)).1⟩

/-- C9: the claim states that after construction
`0.4 ≤ min_distance ≤ max_distance ≤ 200` holds.  With configured
`min_distance = 0.1` and `max_distance = 100`, neither reset condition fires
for `min_distance` (it is not above 200 and not above `max_distance`), so it
stays 0.1 < 0.4 after construction, refuting the claim. -/
theorem C9_counterexample :
    ¬ (2/5 ≤ (constructorClamp ⟨100, 1/10⟩).min_distance) := by
  norm_num [constructorClamp]

/-- C9 (amended): the constructor resets `max_distance` to 200 when it lies
outside [0.4, 200] and resets `min_distance` to 0.4 when it exceeds 200 or
exceeds the clamped `max_distance`; afterwards
`min_distance ≤ max_distance ≤ 200` and `0.4 ≤ max_distance` hold, but a
configured `min_distance` below 0.4 (and not above `max_distance`) is kept
unchanged, so `0.4 ≤ min_distance` does not hold in general. -/
theorem C9_clamp_amended (p : DistBounds) :
    (constructorClamp p).min_distance ≤ (constructorClamp p).max_distance ∧
    (constructorClamp p).max_distance ≤ 200 ∧
    2/5 ≤ (constructorClamp p).max_distance ∧
    ((constructorClamp p).min_distance = p.min_distance ∨
      (constructorClamp p).min_distance = 2/5) := by
  unfold constructorClamp
  dsimp only
  split
  · split
    · exact ⟨by norm_num, by norm_num, by norm_num, Or.inr rfl⟩
    · rename_i h2
      push_neg at h2
      exact ⟨h2.2, by norm_num, by norm_num, Or.inl rfl⟩
  · rename_i h1
    push_neg at h1
    split
    · exact ⟨h1.2, h1.1, h1.2, Or.inr rfl⟩
    · rename_i h2
      push_neg at h2
      exact ⟨h2.2, h1.1, h1.2, Or.inl rfl⟩

end Rs

namespace Rs

/-- Helper: the length of a flatMap whose pieces all have length k. -/
theorem length_flatMap_const {α β : Type} (f : α → List β) (k : Nat) :
    ∀ l : List α, (∀ a ∈ l, (f a).length = k) →
      (l.flatMap f).length = k * l.length := by
  intro l
  induction l with
  | nil => intro _; simp
  | cons a t ih =>
    intro h
    simp only [List.flatMap_cons, List.length_append, List.length_cons]
    rw [ih (fun b hb => h b (List.mem_cons_of_mem a hb)),
      h a (List.mem_cons_self a t)]
    ring

/-- Helper: the length of a flatMap whose pieces all have length at most k. -/
theorem length_flatMap_le {α β : Type} (f : α → List β) (k : Nat) :
    ∀ l : List α, (∀ a ∈ l, (f a).length ≤ k) →
      (l.flatMap f).length ≤ k * l.length := by
  intro l
  induction l with
  | nil => intro _; simp
  | cons a t ih =>
    intro h
    simp only [List.flatMap_cons, List.length_append, List.length_cons]
    have h1 := h a (List.mem_cons_self a t)
    have h2 := ih (fun b hb => h b (List.mem_cons_of_mem a hb))
    calc (f a).length + (t.flatMap f).length
        ≤ k + k * t.length := Nat.add_le_add h1 h2
      _ = k * (t.length + 1) := by ring

/-- Helper: with dense output off, every iteration of the newer per-channel
loop emits exactly one point (a geometric point or a placeholder). -/
theorem newerEmitChan_pts_length_sparse (st : NewerState) (pkt : RS32MsopPkt)
    (blk chan : Nat) (h : st.dense_points = false) :
    ((newerEmitChan st pkt blk chan).2).length = 1 := by
  simp only [newerEmitChan, h, Bool.not_false, if_true]
  split <;> rfl

/-- Helper: every iteration of the newer per-channel loop emits at most one
point. -/
theorem newerEmitChan_pts_length_le (st : NewerState) (pkt : RS32MsopPkt)
    (blk chan : Nat) : ((newerEmitChan st pkt blk chan).2).length ≤ 1 := by
  simp only [newerEmitChan]
  split
  · simp
  · split <;> simp

/-- Helper: the errors of one iteration of the newer per-channel loop. -/
theorem newerEmitChan_errs (st : NewerState) (pkt : RS32MsopPkt)
    (blk chan : Nat) :
    (newerEmitChan st pkt blk chan).1 =
      if (pkt.blocks blk).id ≠ RS32_BLOCK_ID then [ErrCode.WRONGPKTHEADER]
      else [] := rfl

set_option maxRecDepth 4000 in
/-- Helper: the traverser grid has 12 × 32 = 384 entries. -/
theorem traverserGrid_length : traverserGrid.length = 384 := by
  decide

/-- C2: the claim states that a spin-data packet accepted by header
validation yields exactly 384 points when dense output is disabled.  The
legacy decoder breaks out of its block loop at the first mismatching block
identifier: on a packet with valid header whose block 0 identifier
mismatches, it appends 0 points, not 384 (the legacy decoder has no dense
option, i.e. it always emits placeholders). -/
theorem C2_counterexample :
    (legacyDecodeMsop exLegacyState pktBadBlock0).length ≠ 384 := by
  decide

set_option maxRecDepth 8000 in
/-- C2 (amended): the newer decoder appends exactly 12 × 32 = 384 points when
dense output is disabled and at most 384 when it is enabled; the legacy
decoder appends 32 points per block of the leading run of blocks with
matching identifiers, stopping at the first mismatch, hence 384 exactly when
all 12 block identifiers match. -/
theorem C2_point_count_amended (stN : NewerState) (pktN : RS32MsopPkt)
    (stL : LegacyState) (pktL : RS32MsopPkt) :
    (stN.dense_points = false → (newerDecodeMsop stN pktN).2.length = 384) ∧
    (newerDecodeMsop stN pktN).2.length ≤ 384 ∧
    (pktL.header_id = RS32_MSOP_ID →
      (legacyDecodeMsop stL pktL).length =
        32 * (legacyProcessedBlocks pktL).length) := by
  have hsnd : (newerDecodeMsop stN pktN).2 =
      traverserGrid.flatMap (fun p => (newerEmitChan stN pktN p.1 p.2).2) :=
    rfl
  have hgrid := traverserGrid_length
  have hle : (traverserGrid.flatMap
      (fun p => (newerEmitChan stN pktN p.1 p.2).2)).length ≤
        1 * traverserGrid.length := by
    apply length_flatMap_le
    intro a ha
    exact newerEmitChan_pts_length_le stN pktN a.1 a.2
  refine ⟨?_, ?_, ?_⟩
  · intro h
    have heq : (traverserGrid.flatMap
        (fun p => (newerEmitChan stN pktN p.1 p.2).2)).length =
          1 * traverserGrid.length := by
      apply length_flatMap_const
      intro a ha
      exact newerEmitChan_pts_length_sparse stN pktN a.1 a.2 h
    rw [hsnd]
    omega
  · rw [hsnd]
    omega
  · intro h
    unfold legacyDecodeMsop
    rw [if_neg (not_not_intro h)]
    apply length_flatMap_const
    intro a ha
    simp [RS32_CHANNELS_PER_BLOCK]

/-- C2 witness: on a concrete all-valid packet, the newer sparse decoder
emits 384 points and the legacy decoder emits 32 points per processed
block. -/
theorem C2_point_count_witness :
    (newerDecodeMsop exNewerState pktAllGood).2.length = 384 ∧
    (legacyDecodeMsop exLegacyState pktAllGood).length =
      32 * (legacyProcessedBlocks pktAllGood).length :=
  ⟨(C2_point_count_amended exNewerState pktAllGood exLegacyState
      pktAllGood).1 rfl,
   (C2_point_count_amended exNewerState pktAllGood exLegacyState
      pktAllGood).2.2 rfl⟩

/-- Helper: the length of a flatMap as the sum of the piece lengths. -/
theorem length_flatMap_sum {α β : Type} (f : α → List β) :
    ∀ l : List α, (l.flatMap f).length =
      (l.map (fun a => (f a).length)).sum := by
  intro l
  induction l with
  | nil => simp
  | cons a t ih => simp [List.flatMap_cons, ih]

/-- Helper: summing an indicator times k counts the filtered elements. -/
theorem sum_map_ite_indicator {α : Type} (p : α → Prop) [DecidablePred p]
    (k : Nat) :
    ∀ l : List α, (l.map (fun a => if p a then k else 0)).sum =
      k * (l.filter (fun a => decide (p a))).length := by
  intro l
  induction l with
  | nil => simp
  | cons a t ih =>
    by_cases h : p a
    · have hd : decide (p a) = true := decide_eq_true h
      simp only [List.map_cons, List.sum_cons, List.filter_cons, ih,
        if_pos h, hd, if_true, List.length_cons]
      ring
    · simp [h, ih]

/-- Helper: the length of the error list of one newer per-channel
iteration. -/
theorem newerEmitChan_errs_length (st : NewerState) (pkt : RS32MsopPkt)
    (blk chan : Nat) :
    (newerEmitChan st pkt blk chan).1.length =
      if (pkt.blocks blk).id ≠ RS32_BLOCK_ID then 1 else 0 := by
  rw [newerEmitChan_errs]
  split <;> rfl

/-- Helper: the newer decoder signals `WRONGPKTHEADER` once per channel of
every block with a mismatching identifier: 32 errors per bad block. -/
theorem newerDecodeMsop_errs_length (st : NewerState) (pkt : RS32MsopPkt) :
    (newerDecodeMsop st pkt).1.length =
      32 * ((List.range 12).filter
        (fun b => decide ((pkt.blocks b).id ≠ RS32_BLOCK_ID))).length := by
  have hfst : (newerDecodeMsop st pkt).1 =
      (List.range 12).flatMap (fun b =>
        (List.range 32).flatMap (fun c => (newerEmitChan st pkt b c).1)) := by
    show traverserGrid.flatMap (fun p => (newerEmitChan st pkt p.1 p.2).1) = _
    unfold traverserGrid RS32_BLOCKS_PER_PKT RS32_CHANNELS_PER_BLOCK
    rw [List.flatMap_assoc]
    simp only [List.flatMap_map]
  rw [hfst, length_flatMap_sum]
  have hinner : ∀ b : Nat,
      ((List.range 32).flatMap
        (fun c => (newerEmitChan st pkt b c).1)).length =
        (if (pkt.blocks b).id ≠ RS32_BLOCK_ID then 1 else 0) * 32 := by
    intro b
    have hx : ((List.range 32).flatMap
        (fun c => (newerEmitChan st pkt b c).1)).length =
        (if (pkt.blocks b).id ≠ RS32_BLOCK_ID then 1 else 0) *
          (List.range 32).length := by
      apply length_flatMap_const
      intro c hc
      exact newerEmitChan_errs_length st pkt b c
    simpa using hx
  simp only [hinner, ite_mul, one_mul, zero_mul]
  exact sum_map_ite_indicator
    (fun b => (pkt.blocks b).id ≠ RS32_BLOCK_ID) 32 (List.range 12)

/-- Helper: with dense output off the newer decoder emits one point per grid
entry, 384 in total, regardless of block identifiers. -/
theorem newerDecodeMsop_pts_length_sparse (st : NewerState)
    (pkt : RS32MsopPkt) (h : st.dense_points = false) :
    (newerDecodeMsop st pkt).2.length = 384 := by
  have hsnd : (newerDecodeMsop st pkt).2 =
      traverserGrid.flatMap (fun p => (newerEmitChan st pkt p.1 p.2).2) := rfl
  have heq : (traverserGrid.flatMap
      (fun p => (newerEmitChan st pkt p.1 p.2).2)).length =
        1 * traverserGrid.length := by
    apply length_flatMap_const
    intro a ha
    exact newerEmitChan_pts_length_sparse st pkt a.1 a.2 h
  have hgrid := traverserGrid_length
  rw [hsnd]
  omega

/-- Helper: with a valid header the legacy decoder appends 32 points per
processed block. -/
theorem legacyDecodeMsop_length (stL : LegacyState) (pktL : RS32MsopPkt)
    (h : pktL.header_id = RS32_MSOP_ID) :
    (legacyDecodeMsop stL pktL).length =
      32 * (legacyProcessedBlocks pktL).length := by
  unfold legacyDecodeMsop
  rw [if_neg (not_not_intro h)]
  apply length_flatMap_const
  intro a ha
  simp [RS32_CHANNELS_PER_BLOCK]

/-- Helper: a takeWhile is no longer than the position of any element
falsifying the predicate. -/
theorem takeWhile_length_le_of_false {α : Type} (p : α → Bool) :
    ∀ (l : List α) (j : Nat) (h : j < l.length),
      p (l.get ⟨j, h⟩) = false → (l.takeWhile p).length ≤ j := by
  intro l
  induction l with
  | nil => intro j h; exact absurd h (by simp)
  | cons a t ih =>
    intro j h hp
    cases j with
    | zero =>
      have hpa : p a = false := hp
      simp [List.takeWhile_cons, hpa]
    | succ j =>
      by_cases hpa : p a = true
      · rw [List.takeWhile_cons, if_pos hpa]
        simp only [List.length_cons]
        have hj : j < t.length := Nat.lt_of_succ_lt_succ h
        exact Nat.succ_le_succ (ih j hj hp)
      · have hpa2 : p a = false := by
          cases hq : p a
          · rfl
          · exact absurd hq hpa
        simp [List.takeWhile_cons, hpa2]

/-- Helper: the legacy block loop processes at most the blocks strictly
before any block with a mismatching identifier. -/
theorem legacyProcessedBlocks_length_le (pkt : RS32MsopPkt) (j : Nat)
    (hj : j < 12) (hbad : (pkt.blocks j).id ≠ RS32_BLOCK_ID) :
    (legacyProcessedBlocks pkt).length ≤ j := by
  unfold legacyProcessedBlocks RS32_BLOCKS_PER_PKT
  have hr : j < (List.range 12).length := by simpa using hj
  apply takeWhile_length_le_of_false _ (List.range 12) j hr
  have hget : (List.range 12).get ⟨j, hr⟩ = j := by simp
  rw [hget]
  exact beq_eq_false_iff_ne.mpr hbad

set_option maxRecDepth 10000 in
/-- C3: the claim states a block-identifier mismatch signals
`WrongPacketHeader` and decoding of the remaining blocks continues.  The
legacy decoder instead executes `break`: on a packet whose block 5 has a bad
identifier it appends only the 160 points of blocks 0-4 and never reaches
the valid block 6, and the legacy decode path invokes no error callback at
all. -/
theorem C3_counterexample :
    (legacyDecodeMsop exLegacyState pktBadBlock5).length ≠ 384 ∧
    (pktBadBlock5.blocks 6).id = RS32_BLOCK_ID := by
  constructor
  · decide
  · decide

/-- C3 (amended): the newer decoder signals `WRONGPKTHEADER` (once per
channel, 32 times per mismatching block) and keeps decoding — with sparse
output it still emits all 384 points; the legacy decoder signals nothing
and stops at the first mismatching block identifier, emitting at most 32
points per block strictly before it. -/
theorem C3_block_header_amended (st : NewerState) (pkt : RS32MsopPkt)
    (stL : LegacyState) (pktL : RS32MsopPkt) :
    ((newerDecodeMsop st pkt).1.length =
      32 * ((List.range 12).filter
        (fun b => decide ((pkt.blocks b).id ≠ RS32_BLOCK_ID))).length) ∧
    (st.dense_points = false → (newerDecodeMsop st pkt).2.length = 384) ∧
    (∀ j : Nat, j < 12 → (pktL.blocks j).id ≠ RS32_BLOCK_ID →
      (legacyDecodeMsop stL pktL).length ≤ 32 * j) := by
  refine ⟨newerDecodeMsop_errs_length st pkt,
    fun h => newerDecodeMsop_pts_length_sparse st pkt h, ?_⟩
  intro j hj hbad
  by_cases hh : pktL.header_id = RS32_MSOP_ID
  · rw [legacyDecodeMsop_length stL pktL hh]
    have := legacyProcessedBlocks_length_le pktL j hj hbad
    omega
  · unfold legacyDecodeMsop
    rw [if_pos hh]
    simp

/-- C3 witness: on a concrete packet with a bad block 0 the newer sparse
decoder still emits 384 points; on a concrete packet with a bad block 5 the
legacy decoder emits at most 160 points. -/
theorem C3_block_header_witness :
    (newerDecodeMsop exNewerState pktBadBlock0).2.length = 384 ∧
    (legacyDecodeMsop exLegacyState pktBadBlock5).length ≤ 32 * 5 :=
  ⟨(C3_block_header_amended exNewerState pktBadBlock0 exLegacyState
      pktBadBlock5).2.1 rfl,
   (C3_block_header_amended exNewerState pktBadBlock0 exLegacyState
      pktBadBlock5).2.2 5 (by decide) (by decide)⟩

/-- Helper: the newer spin-data decode signals only header errors. -/
theorem newerDecodeMsop_errs_mem (st : NewerState) (pkt : RS32MsopPkt) :
    ∀ e ∈ (newerDecodeMsop st pkt).1, e = ErrCode.WRONGPKTHEADER := by
  intro e he
  have hfst : (newerDecodeMsop st pkt).1 =
      traverserGrid.flatMap (fun p => (newerEmitChan st pkt p.1 p.2).1) := rfl
  rw [hfst, List.mem_flatMap] at he
  obtain ⟨p, hp, hep⟩ := he
  rw [newerEmitChan_errs] at hep
  by_cases hb : (pkt.blocks p.1).id ≠ RS32_BLOCK_ID
  · rw [if_pos hb] at hep
    simpa using hep
  · rw [if_neg hb] at hep
    simp at hep

/-- Helper: the newer spin-data decode never signals `WRONGPKTLENGTH`. -/
theorem newerDecodeMsop_count_len_zero (st : NewerState) (pkt : RS32MsopPkt) :
    (newerDecodeMsop st pkt).1.count ErrCode.WRONGPKTLENGTH = 0 := by
  rw [List.count_eq_zero]
  intro hmem
  have := newerDecodeMsop_errs_mem st pkt _ hmem
  simp at this

/-- C4: a packet whose size differs from the fixed 1248-byte constant makes
the decode call signal `WRONGPKTLENGTH` exactly once (counting occurrences
in the emitted error list), while decoding still proceeds: the configuration
path still assigns the echo mode from the packet, and the spin-data path
still emits the same points as the length-validated decode.  The
configuration-path check is in-source (`processDifopPkt`); the spin-data
length check is modelled from the spec (`processMsopPkt`). -/
theorem C4_wrong_length (stD : NewerDifopState) (sizeD : Nat)
    (dpkt : RS32DifopPkt) (stM : NewerState) (sizeM : Nat)
    (mpkt : RS32MsopPkt) (hD : sizeD ≠ 1248) (hM : sizeM ≠ 1248) :
    ((processDifopPkt stD sizeD dpkt).1.count ErrCode.WRONGPKTLENGTH = 1 ∧
      (processDifopPkt stD sizeD dpkt).2.echo_mode =
        getEchoMode dpkt.return_mode) ∧
    ((processMsopPkt stM sizeM mpkt).1.count ErrCode.WRONGPKTLENGTH = 1 ∧
      (processMsopPkt stM sizeM mpkt).2 = (newerDecodeMsop stM mpkt).2) := by
  refine ⟨⟨?_, rfl⟩, ⟨?_, rfl⟩⟩
  · show ((if sizeD ≠ DIFOP_LEN then [ErrCode.WRONGPKTLENGTH] else []) ++
      (if dpkt.id ≠ RS32_DIFOP_ID then [ErrCode.WRONGPKTHEADER]
        else [])).count ErrCode.WRONGPKTLENGTH = 1
    rw [List.count_append, if_pos (show sizeD ≠ DIFOP_LEN from hD)]
    split <;> simp [List.count_cons, List.count_nil]
  · show ((if sizeM ≠ MSOP_LEN then [ErrCode.WRONGPKTLENGTH] else []) ++
      (newerDecodeMsop stM mpkt).1).count ErrCode.WRONGPKTLENGTH = 1
    rw [List.count_append, if_pos (show sizeM ≠ MSOP_LEN from hM),
      newerDecodeMsop_count_len_zero]
    simp [List.count_cons, List.count_nil]

/-- C4 witness: a 100-byte packet of either kind signals exactly one
`WRONGPKTLENGTH`, and decoding still proceeds. -/
theorem C4_wrong_length_witness :
    ((processDifopPkt ⟨RSEchoMode.ECHO_SINGLE⟩ 100 exDifopPktNew).1.count
        ErrCode.WRONGPKTLENGTH = 1 ∧
      (processDifopPkt ⟨RSEchoMode.ECHO_SINGLE⟩ 100 exDifopPktNew).2.echo_mode
        = getEchoMode exDifopPktNew.return_mode) ∧
    ((processMsopPkt exNewerState 100 pktAllGood).1.count
        ErrCode.WRONGPKTLENGTH = 1 ∧
      (processMsopPkt exNewerState 100 pktAllGood).2 =
        (newerDecodeMsop exNewerState pktAllGood).2) :=
  C4_wrong_length ⟨RSEchoMode.ECHO_SINGLE⟩ 100 exDifopPktNew exNewerState 100
    pktAllGood (by decide) (by decide)

/-- C5: the legacy gate of decoder_32.hpp line 227 coincides, for normalized
angles in [0, 36000), with the specification's formulation: inclusive
distance bounds, and the azimuth window read directly when `angle_flag` is
set (no wrap) or as `a ≥ start ∨ a ≤ end` when wrap is enabled. -/
theorem C5_gate_spec (st : LegacyState) (d : ℚ) (a : Int)
    (h0 : 0 ≤ a) (h1 : a < 36000) :
    legacyGate st d a = specGateValid st d a := by
  unfold legacyGate specGateValid
  rw [Bool.eq_iff_iff]
  cases hf : st.angle_flag with
  | true =>
    rw [if_pos rfl]
    simp only [Bool.true_and, Bool.not_true, Bool.false_and, Bool.or_false,
      Bool.and_eq_true, decide_eq_true_eq]
    constructor
    · rintro ⟨⟨x, y⟩, z⟩
      exact ⟨⟨y, x⟩, z⟩
    · rintro ⟨⟨x, y⟩, z⟩
      exact ⟨⟨y, x⟩, z⟩
  | false =>
    rw [if_neg Bool.false_ne_true]
    simp only [Bool.false_and, Bool.not_false, Bool.true_and, Bool.false_or,
      Bool.and_eq_true, Bool.or_eq_true, decide_eq_true_eq]
    constructor
    · rintro ⟨⟨x, y⟩, z⟩
      refine ⟨⟨y, x⟩, ?_⟩
      rcases z with ⟨z1, _⟩ | ⟨_, z2⟩
      · exact Or.inl z1
      · exact Or.inr z2
    · rintro ⟨⟨x, y⟩, z⟩
      refine ⟨⟨y, x⟩, ?_⟩
      rcases z with z1 | z2
      · exact Or.inl ⟨z1, by omega⟩
      · exact Or.inr ⟨h0, z2⟩

/-- C5 witness: with the wrap-enabled window start = 35000, end = 1000 and a
distance inside the bounds, angle 35500 passes the gate, angle 500 passes,
and angle 20000 fails; a distance exactly at the 200 m bound passes. -/
theorem C5_gate_spec_witness :
    legacyGate exWrapState 1 35500 = true ∧
    legacyGate exWrapState 1 500 = true ∧
    legacyGate exWrapState 1 20000 = false ∧
    legacyGate exWrapState 200 35500 = true := by
  refine ⟨?_, ?_, ?_, ?_⟩
  · rw [C5_gate_spec exWrapState 1 35500 (by decide) (by decide)]
    simp [specGateValid, exWrapState, exLegacyState]
  · rw [C5_gate_spec exWrapState 1 500 (by decide) (by decide)]
    simp [specGateValid, exWrapState, exLegacyState]
  · rw [C5_gate_spec exWrapState 1 20000 (by decide) (by decide)]
    simp [specGateValid, exWrapState, exLegacyState]
  · rw [C5_gate_spec exWrapState 200 35500 (by decide) (by decide)]
    simp [specGateValid, exWrapState, exLegacyState]

/-- C7: the claim states the placeholder emitted for a gate-failing channel
has x, y, z and intensity all NaN.  The newer decoder's placeholder branch
(decoder_RS32.hpp line 239) calls `setIntensity(point, 0)`: on a concrete
gate-failing channel the emitted placeholder's intensity is the value 0, not
NaN, refuting the claim. -/
theorem C7_counterexample :
    ((newerEmitChan exGateFailState pktAllGood 0 0).2.map
      (fun pt => pt.intensity)) = [FVal.val 0] ∧
    FVal.val (0 : ℚ) ≠ FVal.nan := by
  constructor
  · have hg : newerChanGate exGateFailState pktAllGood 0 0 = false := by
      simp [newerChanGate, distanceIn, exGateFailState, exNewerState,
        pktAllGood, goodBlock, zeroChannel, RS_SWAP_SHORT,
        RS_RESOLUTION_5mm_DISTANCE_COEF]
    have hd : exGateFailState.dense_points = false := rfl
    simp [newerEmitChan, hg, hd]
  · simp

/-- C7 (amended): for a channel failing the distance/azimuth gate, the newer
decoder with dense output emits nothing, and with sparse output emits a
placeholder whose x/y/z are NaN, whose intensity is 0 (not NaN), and whose
ring index and timestamp are preserved; the legacy decoder's placeholder
has x/y/z/intensity all NaN. -/
theorem C7_placeholder_amended (st : NewerState) (pkt : RS32MsopPkt)
    (blk chan : Nat) (stL : LegacyState) (pktL : RS32MsopPkt)
    (blkL chL : Nat)
    (hg : newerChanGate st pkt blk chan = false)
    (hgL : legacyChanValid stL pktL blkL chL = false) :
    ((st.dense_points = true → (newerEmitChan st pkt blk chan).2 = []) ∧
     (st.dense_points = false → (newerEmitChan st pkt blk chan).2 =
        [{ x := FVal.nan, y := FVal.nan, z := FVal.nan,
           intensity := FVal.val 0,
           ring := st.toUserChan chan,
           timestamp := st.traverserTs blk chan }])) ∧
    legacyPoint stL pktL blkL chL =
      { x := FVal.nan, y := FVal.nan, z := FVal.nan,
        intensity := FVal.nan } := by
  refine ⟨⟨?_, ?_⟩, ?_⟩
  · intro hd
    simp [newerEmitChan, hg, hd]
  · intro hd
    simp [newerEmitChan, hg, hd]
  · unfold legacyChanValid at hgL
    simp [legacyPoint, hgL]

/-- C7 witness: concrete gate-failing channels.  In the newer decoder the
dense configuration emits nothing and the sparse one emits the
zero-intensity NaN placeholder; the legacy decoder emits the all-NaN
placeholder. -/
theorem C7_placeholder_witness :
    ((exGateFailDense.dense_points = true →
        (newerEmitChan exGateFailDense pktAllGood 0 0).2 = []) ∧
     (exGateFailDense.dense_points = false →
        (newerEmitChan exGateFailDense pktAllGood 0 0).2 =
          [{ x := FVal.nan, y := FVal.nan, z := FVal.nan,
             intensity := FVal.val 0,
             ring := exGateFailDense.toUserChan 0,
             timestamp := exGateFailDense.traverserTs 0 0 }])) ∧
    legacyPoint exGateFailLegacy pktAllGood 0 0 =
      { x := FVal.nan, y := FVal.nan, z := FVal.nan,
        intensity := FVal.nan } :=
  C7_placeholder_amended exGateFailDense pktAllGood 0 0 exGateFailLegacy
    pktAllGood 0 0
    (by simp [newerChanGate, distanceIn, exGateFailDense, exNewerState,
      pktAllGood, goodBlock, zeroChannel, RS_SWAP_SHORT,
      RS_RESOLUTION_5mm_DISTANCE_COEF])
    (by simp [legacyChanValid, legacyGate, legacyDistanceCali,
      exGateFailLegacy, exLegacyState, pktAllGood, goodBlock, zeroChannel,
      RS_SWAP_SHORT, RS_RESOLUTION_5mm_DISTANCE_COEF])

/-- Helper: a fold whose step only appends to the first list component
leaves the accumulated list as a prefix. -/
theorem foldl_snd_fst_prefix {α : Type}
    (step : Int × List ℚ × List ℚ → α → Int × List ℚ × List ℚ)
    (hstep : ∀ acc a, ∃ u : List ℚ, (step acc a).2.1 = acc.2.1 ++ u) :
    ∀ (l : List α) (acc : Int × List ℚ × List ℚ),
      ∃ t : List ℚ, ((l.foldl step acc).2.1) = acc.2.1 ++ t := by
  intro l
  induction l with
  | nil => intro acc; exact ⟨[], by simp⟩
  | cons i l ih =>
    intro acc
    rw [List.foldl_cons]
    obtain ⟨t, ht⟩ := ih (step acc i)
    obtain ⟨u, hu⟩ := hstep acc i
    exact ⟨u ++ t, by rw [ht, hu, List.append_assoc]⟩

/-- Helper: the first entry of the parsed vertical-angle table comes from
the first three calibration bytes, with sign byte 0 meaning positive. -/
theorem parseCali_fst_head (p q : Nat → Nat) (hp : p 0 = 0) :
    (parseCali p q).1.getD 0 0 =
      ((p 1 * 256 + p 2 : Nat) : ℚ) * ((1 : Int) : ℚ) * (1/10) := by
  unfold parseCali
  rw [List.range_succ_eq_map, List.foldl_cons]
  obtain ⟨t, ht⟩ := foldl_snd_fst_prefix (parseCaliStep p q)
    (fun acc a => ⟨_, rfl⟩) ((List.range 31).map Nat.succ)
    (parseCaliStep p q (1, [], []) 0)
  rw [ht]
  simp [parseCaliStep, hp]

/-- C8: the claim states file calibration wins: after a successful
calibration-file load, configuration packets leave the stored angles
unchanged.  In the legacy decoder `loadCalibrationFile` never sets
`cali_data_flag_`, so the first valid configuration packet overwrites the
file-loaded angles: concretely, channel 0's stored vertical angle is 100
after the file load and 29.1 after the packet. -/
theorem C8_counterexample :
    (legacyDecodeDifopCal (loadCalibrationFile exCalRows exCalZero)
        exDifopGood).vert_angle_list.getD 0 0 ≠
      (loadCalibrationFile exCalRows exCalZero).vert_angle_list.getD 0 0 := by
  have h1 : (loadCalibrationFile exCalRows exCalZero).vert_angle_list.getD 0 0
      = 100 := by
    simp [loadCalibrationFile, exCalRows, exCalZero]
  have hflag : (loadCalibrationFile exCalRows exCalZero).cali_data_flag
      = 0 := rfl
  have h2 : legacyDecodeDifopCal (loadCalibrationFile exCalRows exCalZero)
      exDifopGood =
      { cali_data_flag := (loadCalibrationFile exCalRows
          exCalZero).cali_data_flag ||| 2
        vert_angle_list :=
          (parseCali exDifopGood.pitch_cali exDifopGood.yaw_cali).1
        hori_angle_list :=
          (parseCali exDifopGood.pitch_cali exDifopGood.yaw_cali).2 } := by
    unfold legacyDecodeDifopCal
    rw [if_neg (by decide), if_neg (by rw [hflag]; decide),
      if_neg (by decide)]
  have h3 : (parseCali exDifopGood.pitch_cali
      exDifopGood.yaw_cali).1.getD 0 0 =
      ((exDifopGood.pitch_cali 1 * 256 + exDifopGood.pitch_cali 2 : Nat) : ℚ)
        * ((1 : Int) : ℚ) * (1/10) :=
    parseCali_fst_head _ _ (by decide)
  rw [h1, h2]
  show (parseCali exDifopGood.pitch_cali exDifopGood.yaw_cali).1.getD 0 0 ≠
    100
  rw [h3]
  norm_num [exDifopGood]

/-- Helper: setting bit 0x2 by bitwise or makes the masked test non-zero. -/
theorem or_two_and_two (a : Nat) : (a ||| 2) &&& 2 = 2 := by
  apply Nat.eq_of_testBit_eq
  intro i
  simp only [Nat.testBit_and, Nat.testBit_or]
  cases h : Nat.testBit 2 i <;> simp [h]

/-- C8 (amended): telemetry calibration ingestion is at-most-once — once
bit 0x2 of the flag is set, any configuration packet leaves the store
unchanged, and when the bit is clear the first valid non-degenerate packet
populates both angle tables and sets the bit, after which further packets
are no-ops; but `loadCalibrationFile` leaves the flag unchanged, so a file
load does not block a later packet from overwriting the stored angles
(file precedence does not hold). -/
theorem C8_calibration_amended (st : LegacyCal) (pkt : LegacyDifopPkt)
    (rows : List (ℚ × ℚ)) :
    (st.cali_data_flag &&& 2 ≠ 0 → legacyDecodeDifopCal st pkt = st) ∧
    ((loadCalibrationFile rows st).cali_data_flag = st.cali_data_flag) ∧
    (st.cali_data_flag &&& 2 = 0 → pkt.id = RS32_DIFOP_ID →
      (caliByteDegenerate (pkt.pitch_cali 0) &&
        caliByteDegenerate (pkt.pitch_cali 1) &&
        caliByteDegenerate (pkt.pitch_cali 2)) = false →
      legacyDecodeDifopCal st pkt =
        { cali_data_flag := st.cali_data_flag ||| 2
          vert_angle_list := (parseCali pkt.pitch_cali pkt.yaw_cali).1
          hori_angle_list := (parseCali pkt.pitch_cali pkt.yaw_cali).2 } ∧
      (∀ pkt3 : LegacyDifopPkt,
        legacyDecodeDifopCal (legacyDecodeDifopCal st pkt) pkt3 =
          legacyDecodeDifopCal st pkt)) := by
  refine ⟨?_, rfl, ?_⟩
  · intro hflag
    unfold legacyDecodeDifopCal
    by_cases hid : pkt.id ≠ RS32_DIFOP_ID
    · rw [if_pos hid]
    · rw [if_neg hid, if_pos hflag]
  · intro hflag hid hdeg
    have hpop : legacyDecodeDifopCal st pkt =
        { cali_data_flag := st.cali_data_flag ||| 2
          vert_angle_list := (parseCali pkt.pitch_cali pkt.yaw_cali).1
          hori_angle_list := (parseCali pkt.pitch_cali pkt.yaw_cali).2 } := by
      unfold legacyDecodeDifopCal
      rw [if_neg (not_not_intro hid), if_neg (not_not_intro hflag),
        if_neg (by rw [hdeg]; exact Bool.false_ne_true)]
    refine ⟨hpop, ?_⟩
    intro pkt3
    rw [hpop]
    unfold legacyDecodeDifopCal
    have hbit : (st.cali_data_flag ||| 2) &&& 2 ≠ 0 := by
      rw [or_two_and_two]
      decide
    by_cases hid3 : pkt3.id ≠ RS32_DIFOP_ID
    · rw [if_pos hid3]
    · rw [if_neg hid3, if_pos hbit]

/-- C8 witness: with bit 0x2 already set a packet is a no-op; with a clear
flag a file load leaves the flag clear, and a first valid packet populates
the store, sets the bit and makes a second packet a no-op. -/
theorem C8_calibration_witness :
    (legacyDecodeDifopCal exCalReady exDifopGood = exCalReady) ∧
    ((loadCalibrationFile exCalRows exCalZero).cali_data_flag =
      exCalZero.cali_data_flag) ∧
    (legacyDecodeDifopCal exCalZero exDifopGood =
      { cali_data_flag := exCalZero.cali_data_flag ||| 2
        vert_angle_list :=
          (parseCali exDifopGood.pitch_cali exDifopGood.yaw_cali).1
        hori_angle_list :=
          (parseCali exDifopGood.pitch_cali exDifopGood.yaw_cali).2 } ∧
      legacyDecodeDifopCal (legacyDecodeDifopCal exCalZero exDifopGood)
        exDifopGood2 = legacyDecodeDifopCal exCalZero exDifopGood) :=
  ⟨(C8_calibration_amended exCalReady exDifopGood exCalRows).1 (by decide),
   (C8_calibration_amended exCalZero exDifopGood exCalRows).2.1,
   ⟨((C8_calibration_amended exCalZero exDifopGood exCalRows).2.2
      (by decide) (by decide) (by decide)).1,
    ((C8_calibration_amended exCalZero exDifopGood exCalRows).2.2
      (by decide) (by decide) (by decide)).2 exDifopGood2⟩⟩

/-- C10: with a matching identifier but degenerate leading calibration bytes
(each 0x00 or 0xFF) the packet's tables are not parsed — flag and both angle
lists are untouched — and a later packet with non-degenerate bytes still
populates the store and sets the flag bit. -/
theorem C10_degenerate_cali (st : LegacyCal) (pkt pkt2 : LegacyDifopPkt)
    (hid : pkt.id = RS32_DIFOP_ID)
    (hdeg : (caliByteDegenerate (pkt.pitch_cali 0) &&
      caliByteDegenerate (pkt.pitch_cali 1) &&
      caliByteDegenerate (pkt.pitch_cali 2)) = true)
    (hflag : st.cali_data_flag &&& 2 = 0)
    (hid2 : pkt2.id = RS32_DIFOP_ID)
    (hdeg2 : (caliByteDegenerate (pkt2.pitch_cali 0) &&
      caliByteDegenerate (pkt2.pitch_cali 1) &&
      caliByteDegenerate (pkt2.pitch_cali 2)) = false) :
    legacyDecodeDifopCal st pkt = st ∧
    legacyDecodeDifopCal (legacyDecodeDifopCal st pkt) pkt2 =
      { cali_data_flag := st.cali_data_flag ||| 2
        vert_angle_list := (parseCali pkt2.pitch_cali pkt2.yaw_cali).1
        hori_angle_list := (parseCali pkt2.pitch_cali pkt2.yaw_cali).2 } := by
  have hskip : legacyDecodeDifopCal st pkt = st := by
    unfold legacyDecodeDifopCal
    rw [if_neg (not_not_intro hid), if_neg (not_not_intro hflag),
      if_pos hdeg]
  refine ⟨hskip, ?_⟩
  rw [hskip]
  unfold legacyDecodeDifopCal
  rw [if_neg (not_not_intro hid2), if_neg (not_not_intro hflag),
    if_neg (by rw [hdeg2]; exact Bool.false_ne_true)]

/-- C10 witness: an all-0xFF calibration table is skipped and a later
non-degenerate packet still populates the store. -/
theorem C10_degenerate_cali_witness :
    legacyDecodeDifopCal exCalZero exDifopDegenerate = exCalZero ∧
    legacyDecodeDifopCal (legacyDecodeDifopCal exCalZero exDifopDegenerate)
      exDifopGood =
      { cali_data_flag := exCalZero.cali_data_flag ||| 2
        vert_angle_list :=
          (parseCali exDifopGood.pitch_cali exDifopGood.yaw_cali).1
        hori_angle_list :=
          (parseCali exDifopGood.pitch_cali exDifopGood.yaw_cali).2 } :=
  C10_degenerate_cali exCalZero exDifopDegenerate exDifopGood
    (by decide) (by decide) (by decide) (by decide) (by decide)

end Rs
